import Mathlib

/-!
Verification of the supabase-query-alert core against its specification.

The definitions below are a shallow embedding of the Python sources:
  * `src/supabase_query_alert/domain/models.py`        (Severity, Query, Finding, Alert)
  * `src/supabase_query_alert/analyzers/volume_anomaly.py`
  * `src/supabase_query_alert/analyzers/sql_injection.py`
  * `src/supabase_query_alert/analyzers/data_exfiltration.py`
  * `src/supabase_query_alert/analyzers/registry.py`, `core/pipeline.py`
  * `src/supabase_query_alert/input/supabase/parser.py`, `input/logfile/parser.py`

Modelling conventions:
  * Python `datetime` values used by the volume detector are represented by
    their epoch seconds as `Rat` (the detector only ever calls `.timestamp()`
    on them); `datetime.now()` is an explicit `now` argument.
  * Python dicts keyed by user id are insertion-ordered association lists.
  * Regular-expression search is embedded by a small token matcher; all the
    patterns in this code base are deterministic under greedy matching
    (every starred character class is followed by a disjoint token), so the
    greedy matcher agrees with Python's backtracking search on them.
    Character classes model the ASCII behaviour of Python's `\w`, `\s`, `\d`
    (the inputs of this system are SQL text and server log lines).
  * Fallible Python code returns `PyResult`; `PyResult.exn` marks an
    exception escaping the function.
-/

/-- Severity levels, ordered LOW < MEDIUM < HIGH (Python `IntEnum` values 1, 2, 3). -/
inductive Severity where
  | LOW
  | MEDIUM
  | HIGH
deriving DecidableEq, Repr

/-- The `IntEnum` integer value of a severity (used for comparisons and `max`). -/
def Severity.val : Severity → Nat
  | .LOW => 1
  | .MEDIUM => 2
  | .HIGH => 3

/-- Python `max` over a nonempty sequence of severities: fold keeping the
current maximum, replacing it only on strictly greater elements. -/
def pyMaxSev (h : Severity) (t : List Severity) : Severity :=
  t.foldl (fun c x => if c.val < x.val then x else c) h

/-- `QueryMetadata` from `domain/models.py`: all fields independently optional. -/
structure QueryMetadata where
  timestamp : Option Rat
  user_id : Option String
  duration_ms : Option Rat
  source : Option String
deriving DecidableEq, Repr

/-- `Query` from `domain/models.py`. -/
structure Query where
  sql : String
  metadata : Option QueryMetadata
deriving DecidableEq, Repr

/-- The `details` dicts the analyzers construct: either `{"patterns": [...]}`
(pattern detectors) or `{"query_count": ..., "window_seconds": ..., "user_id": ...}`
(volume detector). -/
inductive FindingDetails where
  | patternList : List String → FindingDetails
  | volume : Nat → Rat → String → FindingDetails
deriving DecidableEq, Repr

/-- `Finding` from `domain/models.py`. -/
structure Finding where
  analyzer_name : String
  severity : Severity
  message : String
  details : Option FindingDetails
deriving DecidableEq, Repr

/-- `Alert` from `domain/models.py` (findings tuple as a list, creation time
as epoch seconds). -/
structure Alert where
  query : Query
  findings : List Finding
  timestamp : Rat
deriving DecidableEq, Repr

/-- `Alert.severity`: highest severity among the findings, `LOW` when empty. -/
def Alert.severity (a : Alert) : Severity :=
  match a.findings with
  | [] => .LOW
  | f :: fs => pyMaxSev f.severity (fs.map (fun x => x.severity))

/-! ## Volume anomaly analyzer (`analyzers/volume_anomaly.py`) -/

/-- The per-user timestamp store `self._queries`: an insertion-ordered map
from user key to the list of recent event times (epoch seconds). -/
abbrev VolMap := List (String × List Rat)

/-- `VolumeAnomalyAnalyzer._default_thresholds`. -/
def volThresholds : Severity → Nat
  | .HIGH => 100
  | .MEDIUM => 50
  | .LOW => 20

/-- `VolumeAnomalyAnalyzer._cleanup_expired`: for every stored key, keep only
timestamps strictly newer than `current_time - window_seconds`, and drop the
key entirely when its list becomes empty. -/
def cleanupExpired (w : Rat) (t : Rat) (m : VolMap) : VolMap :=
  (m.map (fun e => (e.1, e.2.filter (fun ts => decide (t - w < ts))))).filter
    (fun e => !e.2.isEmpty)

/-- `self._queries[user_id].append(timestamp)` on a `defaultdict(list)`:
update the entry in place if the key exists, else insert it at the end. -/
def appendTs (m : VolMap) (u : String) (t : Rat) : VolMap :=
  if m.any (fun e => e.1 == u) then
    m.map (fun e => if e.1 == u then (e.1, e.2 ++ [t]) else e)
  else
    m ++ [(u, [t])]

/-- Read a key's list from the map (a `defaultdict` read yields `[]` for a
missing key). -/
def lookupTs (m : VolMap) (u : String) : List Rat :=
  match m.find? (fun e => e.1 == u) with
  | some e => e.2
  | none => []

/-- Plain first-match association lookup into the map. -/
def lookupEntry (m : VolMap) (k : String) : Option (List Rat) :=
  (m.find? (fun e => e.1 == k)).map (fun e => e.2)

/-- User-key resolution in `analyze`: metadata user id if present, else the
anonymous sentinel bucket. -/
def resolveUser (q : Query) : String :=
  match q.metadata with
  | some md =>
    match md.user_id with
    | some u => u
    | none => "__anonymous__"
  | none => "__anonymous__"

/-- Event-time resolution in `analyze`: metadata timestamp if present, else
the current wall-clock time (passed explicitly). -/
def resolveTime (q : Query) (now : Rat) : Rat :=
  match q.metadata with
  | some md =>
    match md.timestamp with
    | some t => t
    | none => now
  | none => now

/-- The finding returned by the volume analyzer when a threshold triggers. -/
def volFinding (w : Rat) (u : String) (count : Nat) (s : Severity) : Finding :=
  { analyzer_name := "volume_anomaly"
    severity := s
    message := "High query volume detected: " ++ toString count ++
      " queries in " ++ toString w ++ "s window"
    details := some (.volume count w u) }

/-- `VolumeAnomalyAnalyzer.analyze`, as explicit state passing: prune the
whole map against the resolved event time, append the event, count, and
evaluate the thresholds in descending order (strict comparisons). -/
def volAnalyze (w : Rat) (m : VolMap) (q : Query) (now : Rat) :
    VolMap × Option Finding :=
  let u := resolveUser q
  let t := resolveTime q now
  let m2 := appendTs (cleanupExpired w t m) u t
  let count := (lookupTs m2 u).length
  let sev : Option Severity :=
    if count > volThresholds .HIGH then some .HIGH
    else if count > volThresholds .MEDIUM then some .MEDIUM
    else if count > volThresholds .LOW then some .LOW
    else none
  match sev with
  | none => (m2, none)
  | some s => (m2, some (volFinding w u count s))

/-- A query carrying a fixed user key and event time (shape used by the
threshold scenarios). -/
def volQuery (u : String) (t : Rat) : Query :=
  { sql := "SELECT 1"
    metadata := some { timestamp := some t, user_id := some u,
                       duration_ms := none, source := none } }

/-- Run a sequence of analyze calls for one user, starting from an empty
store; the second component is the result of the last call. -/
def runVolume (w : Rat) (u : String) (ts : List Rat) : VolMap × Option Finding :=
  ts.foldl (fun acc t => volAnalyze w acc.1 (volQuery u t) 0) ([], none)

/-- The state shape reached by in-window calls for a single user. -/
def volStateOf (u : String) (pre : List Rat) : VolMap :=
  if pre = [] then [] else [(u, pre)]

/-! ## Regular-expression token matcher

The pattern analyzers use `re.search` with IGNORECASE.  Every pattern in the
two analyzers is a sequence of: case-insensitive literals, single-character
classes, greedy starred character classes (always followed by a token from a
disjoint class, so greedy matching is exact), and zero-width word boundaries.
We embed a pattern as a token list and search at every start position. -/

/-- Python `\s` (ASCII part; the inputs are ASCII SQL and log text). -/
def isSpaceChar (c : Char) : Bool :=
  c == ' ' || c == '\t' || c == '\n' || c == '\r' ||
  c == Char.ofNat 11 || c == Char.ofNat 12

/-- Python `\w` (ASCII part). -/
def isWordChar (c : Char) : Bool :=
  c.isAlpha || c.isDigit || c == '_'

/-- Case-insensitive character comparison (ASCII case folding, as in the
analyzers' IGNORECASE patterns over ASCII pattern text). -/
def lcEq (a b : Char) : Bool :=
  a.toLower == b.toLower

/-- One token of an embedded pattern. -/
inductive Tok where
  | lit : List Char → Tok
  | cls : (Char → Bool) → Tok
  | star0 : (Char → Bool) → Tok
  | wb : Tok

/-- Strip a case-insensitive literal from the front of the input. -/
def dropLitCI : List Char → List Char → Option (List Char)
  | [], s => some s
  | _ :: _, [] => none
  | c :: l, x :: s => if lcEq c x then dropLitCI l s else none

/-- Word-boundary test between the previously consumed character and the next
input character (`\b`). -/
def boundaryAt (prev : Option Char) (s : List Char) : Bool :=
  (match prev with | some c => isWordChar c | none => false) !=
  (match s.head? with | some c => isWordChar c | none => false)

/-- Match a token sequence at the current position.  Returns the last
consumed character (for later word-boundary tests) and the remaining input.
Starred classes consume greedily, which is exact for every pattern used
here (each star is followed by a token its class cannot begin). -/
def matchToks : List Tok → Option Char → List Char → Option (Option Char × List Char)
  | [], prev, s => some (prev, s)
  | .lit l :: ts, prev, s =>
    match dropLitCI l s with
    | some s' => matchToks ts (match l.getLast? with | some c => some c | none => prev) s'
    | none => none
  | .cls _ :: _, _, [] => none
  | .cls f :: ts, _, x :: s => if f x then matchToks ts (some x) s else none
  | .star0 f :: ts, prev, s =>
    let run := s.takeWhile f
    matchToks ts (match run.getLast? with | some c => some c | none => prev) (s.dropWhile f)
  | .wb :: ts, prev, s => if boundaryAt prev s then matchToks ts prev s else none

/-- `re.search`: try the token sequence at every position, left to right. -/
def searchToks (p : List Tok) : Option Char → List Char → Bool
  | prev, [] => (matchToks p prev []).isSome
  | prev, x :: s' => (matchToks p prev (x :: s')).isSome || searchToks p (some x) s'

/-- A pattern is a top-level alternation of token sequences (all but one
pattern are single-branch). -/
abbrev RePat := List (List Tok)

/-- Search a pattern in the SQL text. -/
def searchPat (p : RePat) (sql : String) : Bool :=
  p.any (fun b => searchToks b none sql.data)

/-- Case-insensitive literal token. -/
def tokL (s : String) : Tok :=
  .lit s.data

/-- `\s*`. -/
def tokWs0 : Tok :=
  .star0 isSpaceChar

/-- `\s+` (one whitespace character, then greedily the rest). -/
def toksWs1 : List Tok :=
  [.cls isSpaceChar, .star0 isSpaceChar]

/-- The apostrophe character (U+0027), used inside several patterns. -/
def quoteChar : Char :=
  Char.ofNat 39

/-- `'1'` as a literal. -/
def litQuote1 : List Char :=
  [quoteChar, '1', quoteChar]

/-- `[a-z]` under IGNORECASE: an ASCII letter. -/
def isLatinLetter (c : Char) : Bool :=
  c.isAlpha

/-! ## SQL injection analyzer (`analyzers/sql_injection.py`) -/

/-- A stacked-statement pattern `;\s*KEYWORD\b`. -/
def stackedPat (kw : String) : RePat :=
  [[tokL ";", tokWs0, tokL kw, .wb]]

/-- `SQLInjectionAnalyzer._patterns`: the class-level tier table. -/
def sqlInjectionPatterns : Severity → List (RePat × String)
  | .HIGH =>
    [ (stackedPat "DROP", "stacked DROP"),
      (stackedPat "DELETE", "stacked DELETE"),
      (stackedPat "UPDATE", "stacked UPDATE"),
      (stackedPat "INSERT", "stacked INSERT"),
      (stackedPat "ALTER", "stacked ALTER"),
      (stackedPat "CREATE", "stacked CREATE"),
      (stackedPat "TRUNCATE", "stacked TRUNCATE"),
      (stackedPat "WAITFOR", "stacked WAITFOR"),
      ([[.wb, tokL "UNION"] ++ toksWs1 ++ [tokL "ALL"] ++ toksWs1 ++ [tokL "SELECT", .wb]],
        "UNION ALL SELECT"),
      ([[.wb, tokL "UNION"] ++ toksWs1 ++ [tokL "SELECT", .wb]], "UNION SELECT") ]
  | .MEDIUM =>
    [ ([[.wb, tokL "OR"] ++ toksWs1 ++ [tokL "1", tokWs0, tokL "=", tokWs0, tokL "1", .wb]],
        "tautology OR 1=1"),
      ([[.wb, tokL "OR"] ++ toksWs1 ++ [.lit litQuote1, tokWs0, tokL "=", tokWs0, .lit litQuote1]],
        "tautology OR " ++ litQuote1.asString ++ "=" ++ litQuote1.asString),
      ([[.wb, tokL "OR"] ++ toksWs1 ++ [tokL "\"1\"", tokWs0, tokL "=", tokWs0, tokL "\"1\""]],
        "tautology OR \"1\"=\"1\""),
      ([[.wb, tokL "OR"] ++ toksWs1 ++
          [.lit [quoteChar], .cls isLatinLetter, .lit [quoteChar], tokWs0, tokL "=", tokWs0,
           .lit [quoteChar], .cls isLatinLetter, .lit [quoteChar]]],
        "tautology OR " ++ String.mk [quoteChar, 'x', quoteChar] ++ "=" ++
          String.mk [quoteChar, 'x', quoteChar]),
      ([[tokL "--"]], "comment --"),
      ([[tokL "/*"]], "comment /*"),
      ([[tokL "#"]], "comment #") ]
  | .LOW =>
    [ ([[.wb, tokL "SLEEP", tokWs0, tokL "("]], "time-based SLEEP"),
      ([[.wb, tokL "WAITFOR", .wb]], "time-based WAITFOR"),
      ([[.wb, tokL "BENCHMARK", tokWs0, tokL "("]], "time-based BENCHMARK"),
      ([[.wb, tokL "EXTRACTVALUE", tokWs0, tokL "("]], "error-based EXTRACTVALUE"),
      ([[.wb, tokL "UPDATEXML", tokWs0, tokL "("]], "error-based UPDATEXML") ]

/-- The nested collection loop shared by both pattern analyzers: scan the
tiers in the given order, appending `(severity, description)` for every
pattern that matches the SQL text. -/
def collectMatches (tbl : Severity → List (RePat × String)) (order : List Severity)
    (sql : String) : List (Severity × String) :=
  order.foldl
    (fun acc sev =>
      (tbl sev).foldl
        (fun acc2 pd => if searchPat pd.1 sql then acc2 ++ [(sev, pd.2)] else acc2)
        acc)
    []

/-- The `matches` list computed by `SQLInjectionAnalyzer.analyze`. -/
def injMatches (sql : String) : List (Severity × String) :=
  collectMatches sqlInjectionPatterns [.HIGH, .MEDIUM, .LOW] sql

/-- `SQLInjectionAnalyzer.analyze`. -/
def sqlInjectionAnalyze (q : Query) : Option Finding :=
  match injMatches q.sql with
  | [] => none
  | m :: ms =>
    some
      { analyzer_name := "sql_injection"
        severity := pyMaxSev m.1 (ms.map (fun x => x.1))
        message := "SQL injection pattern detected: " ++ m.2
        details := some (.patternList ((m :: ms).map (fun x => x.2))) }

/-! ## Data exfiltration analyzer (`analyzers/data_exfiltration.py`) -/

/-- `SENSITIVE_TABLES` alternation. -/
def sensitiveTables : List String :=
  ["users", "credentials", "payments", "secrets", "tokens"]

/-- `SELECT\s+\*\s+FROM\s+(?:users|credentials|payments|secrets|tokens)\b`
(no leading word boundary in the source pattern). -/
def sensitiveSelectPat : RePat :=
  sensitiveTables.map (fun t =>
    [tokL "SELECT"] ++ toksWs1 ++ [tokL "*"] ++ toksWs1 ++ [tokL "FROM"] ++ toksWs1 ++
      [tokL t, .wb])

/-- A `\bword\b` sensitive-column pattern. -/
def sensitiveColPat (kw : String) : RePat :=
  [[.wb, tokL kw, .wb]]

/-- `DataExfiltrationAnalyzer._patterns`. -/
def dataExfilPatterns : Severity → List (RePat × String)
  | .HIGH =>
    [ (sensitiveSelectPat, "SELECT * from sensitive table"),
      ([[.wb, tokL "INTO"] ++ toksWs1 ++ [tokL "OUTFILE", .wb]], "INTO OUTFILE export"),
      ([[.wb, tokL "INTO"] ++ toksWs1 ++ [tokL "DUMPFILE", .wb]], "INTO DUMPFILE export"),
      ([[.wb, tokL "COPY"] ++ toksWs1 ++ [.cls isWordChar, .star0 isWordChar] ++ toksWs1 ++
          [tokL "TO", .wb]], "COPY TO export") ]
  | .MEDIUM =>
    [ (sensitiveColPat "password", "sensitive column: password"),
      (sensitiveColPat "secret", "sensitive column: secret"),
      (sensitiveColPat "token", "sensitive column: token"),
      (sensitiveColPat "api_key", "sensitive column: api_key"),
      (sensitiveColPat "credit_card", "sensitive column: credit_card"),
      (sensitiveColPat "ssn", "sensitive column: ssn"),
      (sensitiveColPat "private_key", "sensitive column: private_key") ]
  | .LOW => []

/-- Try `\bKEYWORD\s+(\d+)` at the current position; on success return the
greedily captured digit group. -/
def tryNumAt (kw : String) (prev : Option Char) (s : List Char) : Option (List Char) :=
  match matchToks [.wb, .lit kw.data, .cls isSpaceChar, .star0 isSpaceChar] prev s with
  | some (_, rest) =>
    let ds := rest.takeWhile Char.isDigit
    if ds = [] then none else some ds
  | none => none

/-- `re.search` for `\bKEYWORD\s+(\d+)`: leftmost match, capturing the digits. -/
def scanNumCapture (kw : String) : Option Char → List Char → Option (List Char)
  | prev, [] => tryNumAt kw prev []
  | prev, x :: s' =>
    match tryNumAt kw prev (x :: s') with
    | some ds => some ds
    | none => scanNumCapture kw (some x) s'

/-- Search the SQL text for the numeric clause of `kw` (`LIMIT`/`OFFSET`). -/
def searchNumCapture (kw : String) (sql : String) : Option (List Char) :=
  scanNumCapture kw none sql.data

/-- `int()` on the captured digit group. -/
def digitsToNat (ds : List Char) : Nat :=
  ds.foldl (fun acc c => acc * 10 + (c.toNat - 48)) 0

/-- The `matches` list computed by `DataExfiltrationAnalyzer.analyze`: tier
matches over (HIGH, MEDIUM), then the LIMIT check, then the OFFSET check. -/
def exfilMatches (sql : String) : List (Severity × String) :=
  let m1 := collectMatches dataExfilPatterns [.HIGH, .MEDIUM] sql
  let m2 :=
    match searchNumCapture "LIMIT" sql with
    | some ds => if digitsToNat ds > 1000 then m1 ++ [(.LOW, "large LIMIT: " ++ ds.asString)] else m1
    | none => m1
  match searchNumCapture "OFFSET" sql with
  | some ds => if digitsToNat ds > 0 then m2 ++ [(.LOW, "OFFSET pagination: " ++ ds.asString)] else m2
  | none => m2

/-- `DataExfiltrationAnalyzer.analyze`. -/
def dataExfilAnalyze (q : Query) : Option Finding :=
  match exfilMatches q.sql with
  | [] => none
  | m :: ms =>
    some
      { analyzer_name := "data_exfiltration"
        severity := pyMaxSev m.1 (ms.map (fun x => x.1))
        message := "Data exfiltration pattern detected: " ++ m.2
        details := some (.patternList ((m :: ms).map (fun x => x.2))) }

/-! ## Registry and pipeline (`analyzers/registry.py`, `core/pipeline.py`)

A detector is modelled per-call as a function from a query to an optional
finding (the registry consumes detectors polymorphically; the stateful
volume detector corresponds to one such function per internal state). -/

/-- The loop body of `analyze_all`: append the result when it is not None. -/
def appendIfSome (acc : List Finding) (r : Option Finding) : List Finding :=
  match r with
  | some f => acc ++ [f]
  | none => acc

/-- `AnalyzerRegistry.analyze_all`: invoke every detector in registration
order, collecting the non-absent findings in that order. -/
def analyzeAll (analyzers : List (Query → Option Finding)) (q : Query) : List Finding :=
  analyzers.foldl (fun acc a => appendIfSome acc (a q)) []

/-- One iteration of `QueryPipeline.run` for a single query: build an alert
exactly when the findings list is non-empty. -/
def pipelineStep (analyzers : List (Query → Option Finding)) (q : Query) (now : Rat) :
    Option Alert :=
  let findings := analyzeAll analyzers q
  if findings.isEmpty then none
  else some { query := q, findings := findings, timestamp := now }

/-! ## Audit log parsers (`input/supabase/parser.py`, `input/logfile/parser.py`) -/

/-- Result of a Python call: a value, or an exception escaping the call. -/
inductive PyResult (α : Type) where
  | ok : α → PyResult α
  | exn : String → PyResult α
deriving DecidableEq, Repr

/-- Python `str.lstrip()`. -/
def pyLStrip (l : List Char) : List Char :=
  l.dropWhile isSpaceChar

/-- Python `str.rstrip()`. -/
def pyRStrip (l : List Char) : List Char :=
  (l.reverse.dropWhile isSpaceChar).reverse

/-- Python `str.strip()`. -/
def pyStrip (l : List Char) : List Char :=
  pyRStrip (pyLStrip l)

/-- Python `str.rstrip(",")`: drop every trailing comma. -/
def pyRStripComma (l : List Char) : List Char :=
  (l.reverse.dropWhile (fun c => c == ',')).reverse

/-- Case-sensitive literal test at the front of the input (`str.startswith`). -/
def startsWithList : List Char → List Char → Bool
  | [], _ => true
  | _ :: _, [] => false
  | c :: p, x :: s => c == x && startsWithList p s

/-- Case-sensitive literal test at the end of the input (`str.endswith`). -/
def endsWithList (suf l : List Char) : Bool :=
  startsWithList suf.reverse l.reverse

/-- Strip a case-sensitive literal from the front of the input. -/
def dropLitCS : List Char → List Char → Option (List Char)
  | [], s => some s
  | _ :: _, [] => none
  | c :: l, x :: s => if c == x then dropLitCS l s else none

/-- Take exactly `n` decimal digits from the front (for the bounded `\d{n}`
groups of the layer-1 pattern). -/
def takeDigitsN : Nat → List Char → Option (Nat × List Char)
  | 0, s => some (0, s)
  | _ + 1, [] => none
  | n + 1, x :: s =>
    if x.isDigit then
      match takeDigitsN n s with
      | some (v, rest) => some ((x.toNat - 48) * 10 ^ n + v, rest)
      | none => none
    else none

/-- `\d+` with its integer value (`int(...)` on the group). -/
def takeDigits1 (s : List Char) : Option (Nat × List Char) :=
  let ds := s.takeWhile Char.isDigit
  if ds = [] then none else some (digitsToNat ds, s.drop ds.length)

/-- `\w+`: a nonempty greedy word-character run. -/
def takeWord1 (s : List Char) : Option (List Char × List Char) :=
  let wd := s.takeWhile isWordChar
  if wd = [] then none else some (wd, s.drop wd.length)

/-- Exact shape of the `command` group `\w+(?:\s+\w+)*`: over word/space
text terminated by a comma, the regex matches exactly the strings that are
nonempty, begin and end with a word character, and contain only word and
whitespace characters. -/
def isCommandShape (l : List Char) : Bool :=
  l.all (fun c => isWordChar c || isSpaceChar c) &&
  (match l.head? with | some c => isWordChar c | none => false) &&
  (match l.getLast? with | some c => isWordChar c | none => false)

/-- The captured groups of `PgAuditLogParser.AUDIT_PREFIX`. -/
structure AuditHeaderGroups where
  audit_type : String
  statement_id : Nat
  substatement_id : Nat
  command_class : String
  command : String
  object_type : String
  object_name : String
deriving DecidableEq, Repr

/-- Take a `[^,]*` group followed by its terminating comma. -/
def takeFieldComma (s : List Char) : Option (List Char × List Char) :=
  let f := s.takeWhile (fun c => !(c == ','))
  match s.drop f.length with
  | ',' :: rest => some (f, rest)
  | _ => none

/-- `PgAuditLogParser.AUDIT_PREFIX` as a deterministic scanner (the pattern
is anchored and each piece is delimited by characters its class excludes).
Returns the groups and `match.end()`, the number of characters consumed. -/
def matchAuditHeader (s : List Char) : Option (AuditHeaderGroups × Nat) :=
  match dropLitCS "AUDIT:".data s with
  | none => none
  | some s1 =>
    let s2 := s1.dropWhile isSpaceChar
    let atype :=
      match dropLitCS "SESSION,".data s2 with
      | some r => some ("SESSION", r)
      | none =>
        match dropLitCS "OBJECT,".data s2 with
        | some r => some ("OBJECT", r)
        | none => none
    match atype with
    | none => none
    | some (at_, s3) =>
      match takeDigits1 s3 with
      | none => none
      | some (sid, s4) =>
        match s4 with
        | ',' :: s5 =>
          match takeDigits1 s5 with
          | none => none
          | some (ssid, s6) =>
            match s6 with
            | ',' :: s7 =>
              match takeWord1 s7 with
              | none => none
              | some (cclass, s8) =>
                match s8 with
                | ',' :: s9 =>
                  match takeFieldComma s9 with
                  | none => none
                  | some (cmd, s10) =>
                    if isCommandShape cmd then
                      match takeFieldComma s10 with
                      | none => none
                      | some (otype, s11) =>
                        match takeFieldComma s11 with
                        | none => none
                        | some (oname, s12) =>
                          some
                            ({ audit_type := at_
                               statement_id := sid
                               substatement_id := ssid
                               command_class := cclass.asString
                               command := cmd.asString
                               object_type := otype.asString
                               object_name := oname.asString },
                             s.length - s12.length)
                    else none
                | _ => none
            | _ => none
        | _ => none

/-- Naive/aware calendar timestamp (Python `datetime`): calendar fields plus
an optional fixed UTC offset in minutes (`None` = naive). -/
structure PyDatetime where
  year : Nat
  month : Nat
  day : Nat
  hour : Nat
  minute : Nat
  second : Nat
  microsecond : Nat
  tzOffsetMinutes : Option Int
deriving DecidableEq, Repr

/-- `ParsedAuditLog` from `input/supabase/parser.py`. -/
structure ParsedAuditLog where
  audit_type : String
  statement_id : Nat
  substatement_id : Nat
  command_class : String
  command : String
  object_type : Option String
  object_name : Option String
  statement : String
  parameter : Option String
  timestamp : Option PyDatetime
  user_name : Option String
  database_name : Option String
  session_id : Option String
deriving DecidableEq, Repr

/-- The pgaudit redaction suffix. -/
def notLoggedMarker : String :=
  "<not logged>"

/-- `PgAuditLogParser.parse_event_message`.  Note the source matches the
pattern against `event_message.strip()` but slices the statement out of the
unstripped `event_message` at `match.end()`; this embedding reproduces that. -/
def parseEventMessage (msg : String) : Option ParsedAuditLog :=
  match matchAuditHeader (pyStrip msg.data) with
  | none => none
  | some (g, endIdx) =>
    let remainder := msg.data.drop endIdx
    let statement0 := pyStrip remainder
    let withMarker := endsWithList notLoggedMarker.data statement0
    let statement :=
      if withMarker then
        pyStrip (pyRStripComma (statement0.take (statement0.length - notLoggedMarker.data.length)))
      else statement0
    some
      { audit_type := g.audit_type
        statement_id := g.statement_id
        substatement_id := g.substatement_id
        command_class := g.command_class
        command := g.command
        object_type := if g.object_type = "" then none else some g.object_type
        object_name := if g.object_name = "" then none else some g.object_name
        statement := statement.asString
        parameter := if withMarker then some notLoggedMarker else none
        timestamp := none
        user_name := none
        database_name := none
        session_id := none }

/-- Groups captured by `PostgresLogLineParser.LOG_LINE_PATTERN`; the fixed
`\d{n}` timestamp digits are kept as numerals (they are revalidated by the
`strptime` model exactly as the source revalidates the group text). -/
structure LogLineGroups where
  tsYear : Nat
  tsMonth : Nat
  tsDay : Nat
  tsHour : Nat
  tsMinute : Nat
  tsSecond : Nat
  tz : List Char
  client : List Char
  conn : List Char
  pid : Nat
  level : List Char
  message : List Char
deriving DecidableEq, Repr

/-- `LOG_LINE_PATTERN` as a deterministic scanner (every quantified class is
delimited by a character it excludes, so greedy matching is exact). -/
def matchLogLine (line : List Char) : Option LogLineGroups :=
  match takeDigitsN 4 line with
  | none => none
  | some (y, r1) =>
    match r1 with
    | '-' :: r2 =>
      match takeDigitsN 2 r2 with
      | none => none
      | some (mo, r3) =>
        match r3 with
        | '-' :: r4 =>
          match takeDigitsN 2 r4 with
          | none => none
          | some (d, r5) =>
            let sp1 := r5.takeWhile isSpaceChar
            if sp1 = [] then none else
            match takeDigitsN 2 (r5.drop sp1.length) with
            | none => none
            | some (h, r6) =>
              match r6 with
              | ':' :: r7 =>
                match takeDigitsN 2 r7 with
                | none => none
                | some (mi, r8) =>
                  match r8 with
                  | ':' :: r9 =>
                    match takeDigitsN 2 r9 with
                    | none => none
                    | some (sec, r10) =>
                      let sp2 := r10.takeWhile isSpaceChar
                      if sp2 = [] then none else
                      match takeWord1 (r10.drop sp2.length) with
                      | none => none
                      | some (tz, r11) =>
                        match r11 with
                        | ':' :: r12 =>
                          let client := r12.takeWhile (fun c => !(c == ':'))
                          match r12.drop client.length with
                          | ':' :: r13 =>
                            let conn := r13.takeWhile (fun c => !(c == ':'))
                            match r13.drop conn.length with
                            | ':' :: '[' :: r14 =>
                              match takeDigits1 r14 with
                              | none => none
                              | some (pid, r15) =>
                                match r15 with
                                | ']' :: ':' :: r16 =>
                                  match takeWord1 (r16.dropWhile isSpaceChar) with
                                  | none => none
                                  | some (level, r17) =>
                                    match r17 with
                                    | ':' :: r18 =>
                                      some
                                        { tsYear := y, tsMonth := mo, tsDay := d,
                                          tsHour := h, tsMinute := mi, tsSecond := sec,
                                          tz := tz, client := client, conn := conn,
                                          pid := pid, level := level,
                                          message := r18.dropWhile isSpaceChar }
                                    | _ => none
                                | _ => none
                            | _ => none
                          | _ => none
                        | _ => none
                  | _ => none
              | _ => none
        | _ => none
    | _ => none

/-- Gregorian leap-year test. -/
def isLeapYear (y : Nat) : Bool :=
  (y % 4 == 0 && !(y % 100 == 0)) || y % 400 == 0

/-- Days in a month of the proleptic Gregorian calendar. -/
def daysInMonth (y m : Nat) : Nat :=
  if m = 2 then (if isLeapYear y then 29 else 28)
  else if m = 4 || m = 6 || m = 9 || m = 11 then 30
  else 31

/-- Calendar-field validation done by the `datetime` constructor. -/
def dateFieldsOk (y mo d h mi s : Nat) : Bool :=
  1 ≤ y && y ≤ 9999 && 1 ≤ mo && mo ≤ 12 && 1 ≤ d && d ≤ daysInMonth y mo &&
  h ≤ 23 && mi ≤ 59 && s ≤ 59

/-- Modelled from the spec and CPython: `datetime.strptime(ts, "%Y-%m-%d
%H:%M:%S")` applied to a timestamp group already shaped by the layer-1
pattern; it revalidates the calendar fields and raises `ValueError`
(modelled as `none`) when they name no valid date or time. -/
def strptimeCheck (y mo d h mi s : Nat) : Option PyDatetime :=
  if dateFieldsOk y mo d h mi s then
    some { year := y, month := mo, day := d, hour := h, minute := mi, second := s,
           microsecond := 0, tzOffsetMinutes := none }
  else none

/-- `PostgresLogLineParser.USER_DB_PATTERN` applied to the stripped
connection field: `^([^@]+)(?:@(.+))?$`. -/
def parseUserDb (conn : List Char) : Option String × Option String :=
  if conn = [] then (none, none)
  else
    let user := conn.takeWhile (fun c => !(c == '@'))
    if user = [] then (none, none)
    else
      match conn.drop user.length with
      | [] => (some user.asString, none)
      | _ :: [] => (none, none)
      | _ :: db => (some user.asString, some db.asString)

/-- `PostgresLogLineParser.parse_line`.  The prefix timestamp is parsed with
`datetime.strptime` with no exception handler, so a line whose digit fields
name no valid calendar date escapes with `ValueError`. -/
def parseLine (line : String) : PyResult (Option ParsedAuditLog) :=
  let l := pyStrip line.data
  if l = [] then .ok none
  else
    match matchLogLine l with
    | none => .ok none
    | some g =>
      if startsWithList "AUDIT:".data g.message then
        match strptimeCheck g.tsYear g.tsMonth g.tsDay g.tsHour g.tsMinute g.tsSecond with
        | none => .exn "ValueError"
        | some dt0 =>
          let dt :=
            if g.tz.map Char.toLower = "utc".data then
              { dt0 with tzOffsetMinutes := some 0 }
            else dt0
          let ud := parseUserDb (pyStrip g.conn)
          match parseEventMessage g.message.asString with
          | none => .ok none
          | some p =>
            .ok (some
              { p with
                  timestamp := some dt
                  user_name := ud.1
                  database_name := ud.2
                  session_id := if g.pid = 0 then none else some (toString g.pid) })
      else .ok none

/-! ## Structured-row timestamp extraction (`PgAuditLogParser._extract_timestamp`) -/

/-- The JSON-ish values a row's `timestamp` field can hold.  Integers cover
the microseconds-since-epoch form (the rows of this system carry ints or
ISO strings); any other type falls through every `isinstance` check. -/
inductive LogTsValue where
  | absent
  | ofDatetime : PyDatetime → LogTsValue
  | ofString : String → LogTsValue
  | ofInt : Int → LogTsValue
  | ofOther
deriving DecidableEq, Repr

/-- Python `ts.replace("Z", "+00:00")` (every occurrence). -/
def replaceZ (s : String) : String :=
  (s.data.foldr (fun c acc => if c == 'Z' then "+00:00".data ++ acc else c :: acc) []).asString

/-- Parse `HH:MM` with a mandatory colon. -/
def takeHhMm (s : List Char) : Option (Nat × Nat × List Char) :=
  match takeDigitsN 2 s with
  | none => none
  | some (h, r1) =>
    match r1 with
    | ':' :: r2 =>
      match takeDigitsN 2 r2 with
      | none => none
      | some (mi, r3) => some (h, mi, r3)
    | _ => none

/-- Fractional-second digits (1 to 6), right-padded to microseconds. -/
def takeFraction (s : List Char) : Option (Nat × List Char) :=
  let ds := s.takeWhile Char.isDigit
  if ds = [] || ds.length > 6 then none
  else some (digitsToNat ds * 10 ^ (6 - ds.length), s.drop ds.length)

/-- Modelled from CPython `datetime.fromisoformat` (3.11+), restricted to
the forms this system's rows use: `YYYY-MM-DD`, optionally followed by one
separator character and `HH:MM[:SS[.ffffff]]`, optionally followed by a
`±HH:MM` offset; returns `none` (ValueError) otherwise. -/
def fromIsoFormat (s : String) : Option PyDatetime :=
  match takeDigitsN 4 s.data with
  | none => none
  | some (y, r1) =>
    match r1 with
    | '-' :: r2 =>
      match takeDigitsN 2 r2 with
      | none => none
      | some (mo, r3) =>
        match r3 with
        | '-' :: r4 =>
          match takeDigitsN 2 r4 with
          | none => none
          | some (d, r5) =>
            match r5 with
            | [] =>
              if dateFieldsOk y mo d 0 0 0 then
                some { year := y, month := mo, day := d, hour := 0, minute := 0,
                       second := 0, microsecond := 0, tzOffsetMinutes := none }
              else none
            | _ :: r6 =>
              match takeHhMm r6 with
              | none => none
              | some (h, mi, r7) =>
                let secPart :=
                  match r7 with
                  | ':' :: r8 =>
                    match takeDigitsN 2 r8 with
                    | none => none
                    | some (sec, r9) =>
                      match r9 with
                      | '.' :: r10 =>
                        match takeFraction r10 with
                        | none => none
                        | some (us, r11) => some (sec, us, r11)
                      | _ => some (sec, 0, r9)
                  | _ => some (0, 0, r7)
                match secPart with
                | none => none
                | some (sec, us, r12) =>
                  let offPart :=
                    match r12 with
                    | [] => some (none, ([] : List Char))
                    | '+' :: r13 =>
                      match takeHhMm r13 with
                      | none => none
                      | some (oh, om, r14) =>
                        if oh ≤ 23 && om ≤ 59 then
                          some (some ((oh * 60 + om : Nat) : Int), r14)
                        else none
                    | '-' :: r13 =>
                      match takeHhMm r13 with
                      | none => none
                      | some (oh, om, r14) =>
                        if oh ≤ 23 && om ≤ 59 then
                          some (some (-((oh * 60 + om : Nat) : Int)), r14)
                        else none
                    | _ => none
                  match offPart with
                  | none => none
                  | some (off, r15) =>
                    if r15 = [] && dateFieldsOk y mo d h mi sec then
                      some { year := y, month := mo, day := d, hour := h, minute := mi,
                             second := sec, microsecond := us, tzOffsetMinutes := off }
                    else none
        | _ => none
    | _ => none

/-- Outcome of `datetime.fromtimestamp`. -/
inductive FromTsResult where
  | overflow
  | invalid
  | ok : PyDatetime → FromTsResult
deriving DecidableEq, Repr

/-- Civil date from a day count relative to 1970-01-01 (proleptic Gregorian;
Howard Hinnant's algorithm). -/
def civilFromDays (z0 : Int) : Int × Nat × Nat :=
  let z := z0 + 719468
  let era := z.fdiv 146097
  let doe := (z - era * 146097).toNat
  let yoe := (doe - doe / 1460 + doe / 36524 - doe / 146096) / 365
  let y := (yoe : Int) + era * 400
  let doy := doe - (365 * yoe + yoe / 4 - yoe / 100)
  let mp := (5 * doy + 2) / 153
  let d := doy - (153 * mp + 2) / 5 + 1
  let m := if mp < 10 then mp + 3 else mp - 9
  (if m ≤ 2 then y + 1 else y, m, d)

/-- Modelled from CPython `datetime.fromtimestamp(sec)` under a UTC system
zone: seconds outside the signed 64-bit `time_t` range raise
`OverflowError`; a resulting year outside 1..9999 raises `ValueError`
(`invalid`); otherwise the naive calendar timestamp is produced. -/
def fromTimestampR (sec : Rat) : FromTsResult :=
  if (9223372036854775808 : Rat) ≤ sec then .overflow
  else if sec ≤ (-9223372036854775808 : Rat) then .overflow
  else
    let usTotal : Int := (sec * 1000000).floor
    let s := usTotal.fdiv 1000000
    let us := (usTotal - s * 1000000).toNat
    let days := s.fdiv 86400
    let sod := (s - days * 86400).toNat
    let ymd := civilFromDays days
    if 1 ≤ ymd.1 && ymd.1 ≤ 9999 then
      .ok { year := ymd.1.toNat, month := ymd.2.1, day := ymd.2.2,
            hour := sod / 3600, minute := sod % 3600 / 60, second := sod % 60,
            microsecond := us, tzOffsetMinutes := none }
    else .invalid

/-- `PgAuditLogParser._extract_timestamp`: accept `datetime` values as-is,
try ISO-8601 text (catching `ValueError`), then numeric values as
microseconds since the epoch catching only `(ValueError, OSError)` — an
`OverflowError` from `fromtimestamp` escapes the function. -/
def extractTimestamp (v : LogTsValue) : PyResult (Option PyDatetime) :=
  match v with
  | .absent => .ok none
  | .ofDatetime d => .ok (some d)
  | .ofString s =>
    match fromIsoFormat (replaceZ s) with
    | some d => .ok (some d)
    | none => .ok none
  | .ofInt n =>
    match fromTimestampR ((n : Rat) / 1000000) with
    | .ok d => .ok (some d)
    | .invalid => .ok none
    | .overflow => .exn "OverflowError"
  | .ofOther => .ok none

/-! ## Derived definitions used by the theorem statements -/

/-- The matches one tier contributes, in declaration order. -/
def tierMatches (tbl : Severity → List (RePat × String)) (sev : Severity)
    (sql : String) : List (Severity × String) :=
  (tbl sev).filterMap (fun pd => if searchPat pd.1 sql then some (sev, pd.2) else none)

/-- The matches the two standalone numeric checks of the exfiltration
analyzer contribute (LIMIT first, then OFFSET, as in the source). -/
def numericMatches (sql : String) : List (Severity × String) :=
  (match searchNumCapture "LIMIT" sql with
   | some ds =>
     if digitsToNat ds > 1000 then [(Severity.LOW, "large LIMIT: " ++ ds.asString)] else []
   | none => []) ++
  (match searchNumCapture "OFFSET" sql with
   | some ds =>
     if digitsToNat ds > 0 then [(Severity.LOW, "OFFSET pagination: " ++ ds.asString)] else []
   | none => [])

/-- Scenario query 3 of the spec. -/
def q717 : Query :=
  { sql := "SELECT * FROM users WHERE id=1 OR 1=1", metadata := none }

/-- The finding the injection analyzer produces for `q717`. -/
def injFinding717 : Finding :=
  { analyzer_name := "sql_injection"
    severity := .MEDIUM
    message := "SQL injection pattern detected: tautology OR 1=1"
    details := some (.patternList ["tautology OR 1=1"]) }

/-- The finding the exfiltration analyzer produces for `q717`. -/
def exfilFinding717 : Finding :=
  { analyzer_name := "data_exfiltration"
    severity := .HIGH
    message := "Data exfiltration pattern detected: SELECT * from sensitive table"
    details := some (.patternList ["SELECT * from sensitive table"]) }

/-- The alert aggregating the two scenario findings. -/
def alert717 : Alert :=
  { query := q717, findings := [injFinding717, exfilFinding717], timestamp := 0 }

/-- Scenario query 2 of the spec (stacked DROP). -/
def qDrop : Query :=
  { sql := "SELECT 1; DROP TABLE users", metadata := none }

/-- The finding the injection analyzer produces for `qDrop`. -/
def dropFinding : Finding :=
  { analyzer_name := "sql_injection"
    severity := .HIGH
    message := "SQL injection pattern detected: stacked DROP"
    details := some (.patternList ["stacked DROP"]) }

/-- A query hitting one tier pattern and both numeric checks at once. -/
def qExfilCombo : Query :=
  { sql := "SELECT password FROM t LIMIT 2000 OFFSET 5", metadata := none }

/-! ## Helper lemmas -/

attribute [local semireducible] Rat.sub Rat.add Rat.mul Rat.inv

theorem pyMaxSev_cons (h x : Severity) (t : List Severity) :
    pyMaxSev h (x :: t) = pyMaxSev (if h.val < x.val then x else h) t := rfl

theorem pyMaxSev_mem (h : Severity) (t : List Severity) : pyMaxSev h t ∈ h :: t := by
  induction t generalizing h with
  | nil => simp [pyMaxSev]
  | cons x t ih =>
    rw [pyMaxSev_cons]
    by_cases hc : h.val < x.val
    · rw [if_pos hc]
      rcases List.mem_cons.mp (ih x) with h1 | h2
      · simp [h1]
      · exact List.mem_cons.mpr (Or.inr (List.mem_cons.mpr (Or.inr h2)))
    · rw [if_neg hc]
      rcases List.mem_cons.mp (ih h) with h1 | h2
      · simp [h1]
      · exact List.mem_cons.mpr (Or.inr (List.mem_cons.mpr (Or.inr h2)))

theorem le_pyMaxSev (h : Severity) (t : List Severity) :
    h.val ≤ (pyMaxSev h t).val ∧ ∀ x ∈ t, x.val ≤ (pyMaxSev h t).val := by
  induction t generalizing h with
  | nil => simp [pyMaxSev]
  | cons x t ih =>
    rw [pyMaxSev_cons]
    by_cases hc : h.val < x.val
    · rw [if_pos hc]
      obtain ⟨ih1, ih2⟩ := ih x
      refine ⟨le_trans (le_of_lt hc) ih1, ?_⟩
      intro y hy
      rcases List.mem_cons.mp hy with rfl | hy'
      · exact ih1
      · exact ih2 y hy'
    · rw [if_neg hc]
      obtain ⟨ih1, ih2⟩ := ih h
      refine ⟨ih1, ?_⟩
      intro y hy
      rcases List.mem_cons.mp hy with rfl | hy'
      · exact le_trans (Nat.le_of_not_lt hc) ih1
      · exact ih2 y hy'

theorem foldl_collect (q : Query) (as : List (Query → Option Finding)) (acc : List Finding) :
    as.foldl (fun acc a => appendIfSome acc (a q)) acc =
      acc ++ as.filterMap (fun a => a q) := by
  induction as generalizing acc with
  | nil => simp
  | cons a as ih =>
    rw [List.foldl_cons, ih]
    cases hfa : a q <;> simp [appendIfSome, hfa, List.filterMap_cons]

theorem foldl_collect_if {α β : Type} (p : α → Bool) (g : α → β) (l : List α) (acc : List β) :
    l.foldl (fun a x => if p x then a ++ [g x] else a) acc =
      acc ++ l.filterMap (fun x => if p x then some (g x) else none) := by
  induction l generalizing acc with
  | nil => simp
  | cons x l ih =>
    cases hpx : p x <;>
      simp [List.foldl_cons, hpx, ih, List.filterMap_cons]

theorem collectMatches_go (tbl : Severity → List (RePat × String)) (sql : String)
    (order : List Severity) (acc : List (Severity × String)) :
    order.foldl
      (fun acc sev =>
        (tbl sev).foldl
          (fun acc2 pd => if searchPat pd.1 sql then acc2 ++ [(sev, pd.2)] else acc2) acc)
      acc =
      acc ++ (order.map (fun sev => tierMatches tbl sev sql)).flatten := by
  induction order generalizing acc with
  | nil => simp
  | cons sev order ih =>
    rw [List.foldl_cons, ih]
    have hinner :
        (tbl sev).foldl
          (fun acc2 pd => if searchPat pd.1 sql then acc2 ++ [(sev, pd.2)] else acc2) acc =
          acc ++ tierMatches tbl sev sql := by
      simpa [tierMatches] using
        foldl_collect_if (fun pd => searchPat pd.1 sql) (fun pd => (sev, pd.2)) (tbl sev) acc
    rw [hinner]
    simp [List.append_assoc]

theorem collectMatches_eq (tbl : Severity → List (RePat × String)) (sql : String)
    (order : List Severity) :
    collectMatches tbl order sql =
      (order.map (fun sev => tierMatches tbl sev sql)).flatten := by
  simpa [collectMatches] using collectMatches_go tbl sql order []

/-! ## C3 (code_bug): layer-1 parsing can raise from `strptime` -/

/-- C3: the claim asserts that a non-AUDIT line or a line with a malformed
prefix yields an absent result and never an exception.  The code contradicts
it: an AUDIT line whose leading timestamp digits name no valid date (month
13 here) matches `LOG_LINE_PATTERN`, passes the `AUDIT:` check, and then
`datetime.strptime` raises `ValueError` with no handler.  This theorem
evaluates the embedded parser at that failing input. -/
theorem c3_parser_exception :
    parseLine
        "2025-13-01 00:00:00 UTC:10.0.0.1:alice@shop:[123]: LOG: AUDIT: SESSION,1,1,READ,SELECT,,,SELECT 1" =
      .exn "ValueError" := by
  decide

/-! ## C9 (code_bug): timestamp extraction can raise `OverflowError` -/

/-- C9: the claim asserts every malformed or missing timestamp value yields
an absent timestamp without raising.  The numeric branch catches only
`(ValueError, OSError)`, so an integer whose microsecond count divides to a
second count outside the 64-bit `time_t` range makes `datetime.fromtimestamp`
raise an uncaught `OverflowError`.  This theorem evaluates the embedded
extraction at `10^25` microseconds. -/
theorem c9_timestamp_overflow :
    extractTimestamp (.ofInt (10 ^ 25)) = .exn "OverflowError" := by
  decide

/-! ## C4 (corrected): redaction-suffix stripping -/

/-- C4 counterexample: the claim says that after stripping `<not logged>`
neither a trailing comma nor trailing whitespace before the suffix remains.
The code strips trailing commas before stripping whitespace, so a statement
ending in a comma, a space and the suffix keeps its comma: the parsed
statement below is `"SELECT 1,"`, which still ends with a comma. -/
theorem c4_counterexample :
    (parseEventMessage "AUDIT: SESSION,1,1,READ,SELECT,,,SELECT 1, <not logged>").map
        (fun r => (r.statement, r.parameter)) =
      some ("SELECT 1,", some "<not logged>") ∧
    endsWithList ",".data "SELECT 1,".data = true := by
  exact ⟨by decide, by decide⟩

/-! ## C2 (corrected): pattern-match aggregation -/

/-- C2 counterexample: the claim says that when no pattern in any tier
matches, the analyzer returns an absent Finding.  For the exfiltration
analyzer this is false: a query matching no tier pattern but carrying
`LIMIT 2000` still yields a finding from the standalone numeric check. -/
theorem c2_counterexample :
    collectMatches dataExfilPatterns [.HIGH, .MEDIUM] "SELECT a FROM b LIMIT 2000" = [] ∧
    dataExfilAnalyze { sql := "SELECT a FROM b LIMIT 2000", metadata := none } ≠ none := by
  exact ⟨by decide, by decide⟩

/-! ## C5 (corrected): pruning frame -/

/-- C5 counterexample: the claim says pruning removes timestamps only for
the resolved user key and leaves every other key's list unchanged.  The code
prunes the whole map: analyzing user `"b"` at time 0 with a 60-second window
deletes key `"a"`, whose only timestamp (-100) is out of the window. -/
theorem c5_counterexample :
    lookupEntry [("a", [(-100 : Rat)]), ("b", [0])] "a" = some [(-100 : Rat)] ∧
    lookupEntry ((volAnalyze 60 [("a", [(-100 : Rat)]), ("b", [0])] (volQuery "b" 0) 0).1) "a" =
      none := by
  exact ⟨by decide, by decide⟩

/-! ## C7: scenario severities and derived alert severity -/

/-- C7: for the tautology scenario query, the injection analyzer yields a
MEDIUM finding, the exfiltration analyzer a HIGH finding, and the alert
aggregating the two resolves to HIGH; in general the derived alert severity
is LOW on an empty findings list and the maximum finding severity
otherwise. -/
theorem c7_alert_severity :
    sqlInjectionAnalyze q717 = some injFinding717 ∧
    injFinding717.severity = .MEDIUM ∧
    dataExfilAnalyze q717 = some exfilFinding717 ∧
    exfilFinding717.severity = .HIGH ∧
    alert717.severity = .HIGH ∧
    (∀ q t, Alert.severity { query := q, findings := [], timestamp := t } = .LOW) ∧
    (∀ q t fs f, f ∈ fs →
      f.severity.val ≤ (Alert.severity { query := q, findings := fs, timestamp := t }).val) ∧
    (∀ q t fs, fs ≠ [] →
      Alert.severity { query := q, findings := fs, timestamp := t } ∈
        fs.map (fun x => x.severity)) := by
  refine ⟨by decide, by decide, by decide, by decide, by decide, fun q t => rfl, ?_, ?_⟩
  · intro q t fs f hf
    cases fs with
    | nil => cases hf
    | cons g gs =>
      show f.severity.val ≤ (pyMaxSev g.severity (gs.map (fun x => x.severity))).val
      rcases List.mem_cons.mp hf with rfl | hf'
      · exact (le_pyMaxSev _ _).1
      · exact (le_pyMaxSev _ _).2 f.severity (List.mem_map_of_mem _ hf')
  · intro q t fs hfs
    cases fs with
    | nil => exact absurd rfl hfs
    | cons g gs =>
      show pyMaxSev g.severity (gs.map (fun x => x.severity)) ∈ _
      simpa using pyMaxSev_mem g.severity (gs.map (fun x => x.severity))

/-- C7 witness: the general severity facts instantiated at the scenario
alert's findings list. -/
theorem c7_witness :
    injFinding717.severity.val ≤
      (Alert.severity { query := q717, findings := [injFinding717, exfilFinding717],
                        timestamp := 0 }).val ∧
    Alert.severity { query := q717, findings := [injFinding717, exfilFinding717],
                     timestamp := 0 } ∈
      [injFinding717, exfilFinding717].map (fun x => x.severity) :=
  ⟨c7_alert_severity.2.2.2.2.2.2.1 q717 0 [injFinding717, exfilFinding717] injFinding717
      (by decide),
   c7_alert_severity.2.2.2.2.2.2.2 q717 0 [injFinding717, exfilFinding717] (by decide)⟩

/-! ## C8: registry collection and pipeline alert construction -/

/-- C8: `analyze_all` returns exactly the non-absent findings in
registration order, and the pipeline constructs an alert for a query iff
that list is non-empty, with the alert's findings preserving that order. -/
theorem c8_registry_pipeline (as : List (Query → Option Finding)) (q : Query) (now : Rat) :
    analyzeAll as q = as.filterMap (fun a => a q) ∧
    (pipelineStep as q now = none ↔ analyzeAll as q = []) ∧
    ∀ al, pipelineStep as q now = some al → al.query = q ∧ al.findings = analyzeAll as q := by
  refine ⟨?_, ?_, ?_⟩
  · simpa [analyzeAll] using foldl_collect q as []
  · constructor
    · intro h
      by_cases he : (analyzeAll as q).isEmpty
      · exact List.isEmpty_iff.mp he
      · simp [pipelineStep, he] at h
    · intro h
      simp [pipelineStep, h]
  · intro al hal
    by_cases he : (analyzeAll as q).isEmpty
    · simp [pipelineStep, he] at hal
    · simp [pipelineStep, he] at hal
      exact ⟨by rw [← hal], by rw [← hal]⟩

/-- C8 witness: the pipeline step over the two pattern analyzers at the
scenario query produces the scenario alert. -/
theorem c8_witness :
    alert717.query = q717 ∧
    alert717.findings = analyzeAll [sqlInjectionAnalyze, dataExfilAnalyze] q717 :=
  (c8_registry_pipeline [sqlInjectionAnalyze, dataExfilAnalyze] q717 0).2.2 alert717 (by decide)

theorem pyMaxSev_pairs_mem (m0 : Severity × String) (ms : List (Severity × String)) :
    pyMaxSev m0.1 (ms.map (fun x => x.1)) ∈ (m0 :: ms).map (fun m => m.1) := by
  simpa using pyMaxSev_mem m0.1 (ms.map (fun x => x.1))

theorem pyMaxSev_pairs_le (m0 : Severity × String) (ms : List (Severity × String)) :
    ∀ m ∈ m0 :: ms, m.1.val ≤ (pyMaxSev m0.1 (ms.map (fun x => x.1))).val := by
  intro m hm
  rcases List.mem_cons.mp hm with rfl | hm'
  · exact (le_pyMaxSev _ _).1
  · exact (le_pyMaxSev _ _).2 m.1 (List.mem_map_of_mem _ hm')

theorem exfilMatches_split (sql : String) :
    exfilMatches sql =
      collectMatches dataExfilPatterns [.HIGH, .MEDIUM] sql ++ numericMatches sql := by
  unfold exfilMatches numericMatches
  cases hL : searchNumCapture "LIMIT" sql <;>
    cases hO : searchNumCapture "OFFSET" sql <;>
      simp [List.append_assoc] <;> split_ifs <;> simp [List.append_assoc]

theorem numericMatches_low (sql : String) :
    ∀ m ∈ numericMatches sql, m.1 = Severity.LOW := by
  intro m hm
  unfold numericMatches at hm
  rcases List.mem_append.mp hm with h1 | h1
  · cases hL : searchNumCapture "LIMIT" sql with
    | none => rw [hL] at h1; cases h1
    | some ds =>
      rw [hL] at h1
      have h2 : m ∈ (if digitsToNat ds > 1000 then
          [(Severity.LOW, "large LIMIT: " ++ ds.asString)] else []) := h1
      by_cases hc : digitsToNat ds > 1000
      · rw [if_pos hc] at h2
        have h3 := List.mem_singleton.mp h2
        subst h3
        rfl
      · rw [if_neg hc] at h2; cases h2
  · cases hO : searchNumCapture "OFFSET" sql with
    | none => rw [hO] at h1; cases h1
    | some ds =>
      rw [hO] at h1
      have h2 : m ∈ (if digitsToNat ds > 0 then
          [(Severity.LOW, "OFFSET pagination: " ++ ds.asString)] else []) := h1
      by_cases hc : digitsToNat ds > 0
      · rw [if_pos hc] at h2
        have h3 := List.mem_singleton.mp h2
        subst h3
        rfl
      · rw [if_neg hc] at h2; cases h2

/-- C2 as amended: for both pattern analyzers the matches list is collected
tier by tier (HIGH, then MEDIUM, then LOW — the exfiltration LOW entries
being its numeric checks), any returned finding carries the maximum matched
severity, every matched description in that order, and a message embedding
the first collected description; the injection analyzer returns an absent
finding exactly when no pattern matches, while the exfiltration analyzer
returns an absent finding exactly when no tier pattern matches and neither
numeric check fires. -/
theorem c2_pattern_aggregation (q : Query) :
    (sqlInjectionAnalyze q = none ↔ injMatches q.sql = []) ∧
    injMatches q.sql =
      tierMatches sqlInjectionPatterns .HIGH q.sql ++
        (tierMatches sqlInjectionPatterns .MEDIUM q.sql ++
          tierMatches sqlInjectionPatterns .LOW q.sql) ∧
    (∀ f, sqlInjectionAnalyze q = some f →
      f.severity ∈ (injMatches q.sql).map (fun m => m.1) ∧
      (∀ m ∈ injMatches q.sql, m.1.val ≤ f.severity.val) ∧
      f.details = some (.patternList ((injMatches q.sql).map (fun m => m.2))) ∧
      ∃ m0 ms, injMatches q.sql = m0 :: ms ∧
        f.message = "SQL injection pattern detected: " ++ m0.2) ∧
    (dataExfilAnalyze q = none ↔ exfilMatches q.sql = []) ∧
    exfilMatches q.sql =
      tierMatches dataExfilPatterns .HIGH q.sql ++
        (tierMatches dataExfilPatterns .MEDIUM q.sql ++ numericMatches q.sql) ∧
    (∀ m ∈ numericMatches q.sql, m.1 = Severity.LOW) ∧
    (∀ f, dataExfilAnalyze q = some f →
      f.severity ∈ (exfilMatches q.sql).map (fun m => m.1) ∧
      (∀ m ∈ exfilMatches q.sql, m.1.val ≤ f.severity.val) ∧
      f.details = some (.patternList ((exfilMatches q.sql).map (fun m => m.2))) ∧
      ∃ m0 ms, exfilMatches q.sql = m0 :: ms ∧
        f.message = "Data exfiltration pattern detected: " ++ m0.2) := by
  refine ⟨?_, ?_, ?_, ?_, ?_, numericMatches_low q.sql, ?_⟩
  · cases h : injMatches q.sql <;> simp [sqlInjectionAnalyze, h]
  · have := collectMatches_eq sqlInjectionPatterns q.sql [.HIGH, .MEDIUM, .LOW]
    simpa [injMatches, List.append_assoc] using this
  · intro f hf
    cases h : injMatches q.sql with
    | nil => rw [sqlInjectionAnalyze, h] at hf; cases hf
    | cons m0 ms =>
      rw [sqlInjectionAnalyze, h] at hf
      have hf' := (Option.some.injEq _ _).mp hf
      subst hf'
      exact ⟨pyMaxSev_pairs_mem m0 ms, pyMaxSev_pairs_le m0 ms, rfl, m0, ms, rfl, rfl⟩
  · cases h : exfilMatches q.sql <;> simp [dataExfilAnalyze, h]
  · rw [exfilMatches_split q.sql]
    have := collectMatches_eq dataExfilPatterns q.sql [.HIGH, .MEDIUM]
    simp [this, List.append_assoc]
  · intro f hf
    cases h : exfilMatches q.sql with
    | nil => rw [dataExfilAnalyze, h] at hf; cases hf
    | cons m0 ms =>
      rw [dataExfilAnalyze, h] at hf
      have hf' := (Option.some.injEq _ _).mp hf
      subst hf'
      exact ⟨pyMaxSev_pairs_mem m0 ms, pyMaxSev_pairs_le m0 ms, rfl, m0, ms, rfl, rfl⟩

/-- C2 witness: the some-case facts instantiated at the stacked-DROP query. -/
theorem c2_witness :
    dropFinding.severity ∈ (injMatches qDrop.sql).map (fun m => m.1) ∧
    dropFinding.details = some (.patternList ((injMatches qDrop.sql).map (fun m => m.2))) :=
  ⟨((c2_pattern_aggregation qDrop).2.2.1 dropFinding (by decide)).1,
   ((c2_pattern_aggregation qDrop).2.2.1 dropFinding (by decide)).2.2.1⟩

/-! ## C6: exfiltration numeric checks are additive -/

/-- C6: a LIMIT clause whose value exceeds 1000 contributes a LOW match
describing the value, an OFFSET clause with positive value contributes a LOW
match describing the value, both in addition to (not instead of) the tier
matches, and any returned finding lists every collected match in
`details.patterns`. -/
theorem c6_numeric_checks (q : Query) :
    (∀ ds, searchNumCapture "LIMIT" q.sql = some ds → digitsToNat ds > 1000 →
      (Severity.LOW, "large LIMIT: " ++ ds.asString) ∈ exfilMatches q.sql) ∧
    (∀ ds, searchNumCapture "OFFSET" q.sql = some ds → digitsToNat ds > 0 →
      (Severity.LOW, "OFFSET pagination: " ++ ds.asString) ∈ exfilMatches q.sql) ∧
    (∀ m ∈ collectMatches dataExfilPatterns [.HIGH, .MEDIUM] q.sql, m ∈ exfilMatches q.sql) ∧
    (∀ f, dataExfilAnalyze q = some f →
      f.details = some (.patternList ((exfilMatches q.sql).map (fun m => m.2)))) := by
  refine ⟨?_, ?_, ?_, ?_⟩
  · intro ds hL hc
    simp only [exfilMatches, hL]
    rw [if_pos hc]
    cases hO : searchNumCapture "OFFSET" q.sql <;> simp only [hO] <;>
      (try split_ifs) <;> simp
  · intro ds hO hc
    simp only [exfilMatches, hO]
    rw [if_pos hc]
    simp
  · intro m hm
    rw [exfilMatches_split q.sql]
    exact List.mem_append_left _ hm
  · intro f hf
    cases h : exfilMatches q.sql with
    | nil => rw [dataExfilAnalyze, h] at hf; cases hf
    | cons m0 ms =>
      rw [dataExfilAnalyze, h] at hf
      have hf' := (Option.some.injEq _ _).mp hf
      subst hf'
      rfl

/-- C6 witness: both numeric checks fire on the combined query and their
matches appear in the collected list. -/
theorem c6_witness :
    (Severity.LOW, "large LIMIT: " ++ "2000".data.asString) ∈ exfilMatches qExfilCombo.sql ∧
    (Severity.LOW, "OFFSET pagination: " ++ "5".data.asString) ∈ exfilMatches qExfilCombo.sql :=
  ⟨(c6_numeric_checks qExfilCombo).1 "2000".data (by decide) (by decide),
   (c6_numeric_checks qExfilCombo).2.1 "5".data (by decide) (by decide)⟩

theorem startsWith_self_append (p r : List Char) : startsWithList p (p ++ r) = true := by
  induction p with
  | nil => rfl
  | cons c p ih => simp [startsWithList, ih]

theorem endsWith_self_suffix (l suf : List Char) : endsWithList suf (l ++ suf) = true := by
  unfold endsWithList
  rw [List.reverse_append]
  exact startsWith_self_append _ _

theorem dropWhile_replicate_append (p : Char → Bool) (c : Char) (hc : p c = true)
    (k : Nat) (r : List Char) :
    (List.replicate k c ++ r).dropWhile p = r.dropWhile p := by
  induction k with
  | zero => rfl
  | succ k ih => simp [List.replicate_succ, List.dropWhile_cons, hc, ih]

theorem dropWhile_head_not (p : Char → Bool) (l : List Char)
    (h : ∀ x, l.head? = some x → p x = false) : l.dropWhile p = l := by
  cases l with
  | nil => rfl
  | cons x t => simp [List.dropWhile_cons, h x rfl]

theorem pyRStripComma_append_commas (b : List Char) (k : Nat)
    (hb : b.getLast? ≠ some ',') :
    pyRStripComma (b ++ List.replicate k ',') = b := by
  unfold pyRStripComma
  rw [List.reverse_append, List.reverse_replicate]
  rw [dropWhile_replicate_append (fun c => c == ',') ',' (by simp) k b.reverse]
  have hhead : ∀ x, b.reverse.head? = some x → ((x == ',') = false) := by
    intro x hx
    rw [List.head?_reverse] at hx
    have hxne : x ≠ ',' := fun hcc => hb (by rw [hx, hcc])
    simpa using hxne
  rw [dropWhile_head_not _ _ hhead, List.reverse_reverse]

/-- C4 as amended: when the parsed statement text ends with `<not logged>`,
the parser strips the suffix, then any run of commas immediately preceding
it, then surrounding whitespace, and sets the redaction marker; a comma
separated from the suffix only by whitespace is kept (only the whitespace
after it is stripped, as the counterexample shows). -/
theorem c4_redaction_strip (msg : String) (g : AuditHeaderGroups) (e : Nat)
    (b : List Char) (k : Nat)
    (hm : matchAuditHeader (pyStrip msg.data) = some (g, e))
    (hd : pyStrip (msg.data.drop e) = (b ++ List.replicate k ',') ++ notLoggedMarker.data)
    (hb : b.getLast? ≠ some ',') :
    (parseEventMessage msg).map (fun r => (r.statement, r.parameter)) =
      some ((pyStrip b).asString, some notLoggedMarker) := by
  have hmark : endsWithList notLoggedMarker.data (pyStrip (msg.data.drop e)) = true := by
    rw [hd]
    exact endsWith_self_suffix _ _
  have htake : (pyStrip (msg.data.drop e)).take
      ((pyStrip (msg.data.drop e)).length - notLoggedMarker.data.length) =
      b ++ List.replicate k ',' := by
    rw [hd, List.length_append, Nat.add_sub_cancel]
    exact List.take_left _ _
  simp only [parseEventMessage, hm, hmark, if_true, htake,
    pyRStripComma_append_commas b k hb]
  simp

/-- C4 witness: the amended statement evaluated on a message whose statement
ends with a single comma directly followed by the marker. -/
theorem c4_witness :
    (parseEventMessage "AUDIT: SESSION,1,1,READ,SELECT,,,SELECT 1,<not logged>").map
        (fun r => (r.statement, r.parameter)) =
      some ((pyStrip "SELECT 1".data).asString, some notLoggedMarker) :=
  c4_redaction_strip "AUDIT: SESSION,1,1,READ,SELECT,,,SELECT 1,<not logged>"
    { audit_type := "SESSION", statement_id := 1, substatement_id := 1,
      command_class := "READ", command := "SELECT", object_type := "", object_name := "" }
    33 "SELECT 1".data 1 (by decide) (by decide) (by decide)

theorem find?_map_keys (φ : String × List Rat → String × List Rat)
    (hφ : ∀ e, (φ e).1 = e.1) (m : VolMap) (k : String) :
    (m.map φ).find? (fun e => e.1 == k) = (m.find? (fun e => e.1 == k)).map φ := by
  induction m with
  | nil => rfl
  | cons e m ih =>
    simp only [List.map_cons, List.find?_cons, hφ e]
    cases hek : (e.1 == k) <;> simp [hek, ih]

theorem cleanup_keys_sub (w t : Rat) (m : VolMap) :
    ∀ e ∈ cleanupExpired w t m, e.1 ∈ m.map Prod.fst := by
  intro e he
  unfold cleanupExpired at he
  obtain ⟨e0, he0, rfl⟩ := List.mem_map.mp (List.mem_filter.mp he).1
  exact List.mem_map.mpr ⟨e0, he0, rfl⟩

theorem lookupEntry_cons_pos (e : String × List Rat) (m : VolMap) (k : String)
    (hek : (e.1 == k) = true) : lookupEntry (e :: m) k = some e.2 := by
  simp [lookupEntry, List.find?_cons, hek]

theorem lookupEntry_cons_neg (e : String × List Rat) (m : VolMap) (k : String)
    (hek : (e.1 == k) = false) : lookupEntry (e :: m) k = lookupEntry m k := by
  simp [lookupEntry, List.find?_cons, hek]

theorem cleanup_cons_kept (w t : Rat) (e : String × List Rat) (m : VolMap)
    (hfil : e.2.filter (fun x => decide (t - w < x)) ≠ []) :
    cleanupExpired w t (e :: m) =
      (e.1, e.2.filter (fun x => decide (t - w < x))) :: cleanupExpired w t m := by
  unfold cleanupExpired
  simp only [List.map_cons, List.filter_cons]
  have : (!(e.2.filter (fun x => decide (t - w < x))).isEmpty) = true := by
    simp [List.isEmpty_iff, hfil]
  rw [this]
  simp

theorem cleanup_cons_dropped (w t : Rat) (e : String × List Rat) (m : VolMap)
    (hfil : e.2.filter (fun x => decide (t - w < x)) = []) :
    cleanupExpired w t (e :: m) = cleanupExpired w t m := by
  unfold cleanupExpired
  simp only [List.map_cons, List.filter_cons]
  have : (!(e.2.filter (fun x => decide (t - w < x))).isEmpty) = false := by
    simp [hfil]
  rw [this]
  simp

theorem cleanup_lookup (w t : Rat) (m : VolMap) (hnd : (m.map Prod.fst).Nodup) (k : String) :
    lookupEntry (cleanupExpired w t m) k =
      match lookupEntry m k with
      | none => none
      | some l =>
        if l.filter (fun x => decide (t - w < x)) = [] then none
        else some (l.filter (fun x => decide (t - w < x))) := by
  induction m with
  | nil => rfl
  | cons e m ih =>
    simp only [List.map_cons, List.nodup_cons] at hnd
    obtain ⟨hnd1, hnd2⟩ := hnd
    cases hek : (e.1 == k) with
    | true =>
      rw [lookupEntry_cons_pos e m k hek]
      by_cases hfil : e.2.filter (fun x => decide (t - w < x)) = []
      · rw [cleanup_cons_dropped w t e m hfil]
        simp only [hfil, if_true]
        have hnone : ∀ x ∈ cleanupExpired w t m, ¬((fun e => e.1 == k) x = true) := by
          intro x hx hxk
          have hx1 := cleanup_keys_sub w t m x hx
          rw [eq_of_beq hxk, ← eq_of_beq hek] at hx1
          exact hnd1 hx1
        simp [lookupEntry, List.find?_eq_none.mpr hnone]
      · rw [cleanup_cons_kept w t e m hfil,
            lookupEntry_cons_pos (e.1, e.2.filter (fun x => decide (t - w < x)))
              (cleanupExpired w t m) k hek]
        simp [hfil]
    | false =>
      by_cases hfil : e.2.filter (fun x => decide (t - w < x)) = []
      · rw [lookupEntry_cons_neg e m k hek, cleanup_cons_dropped w t e m hfil]
        exact ih hnd2
      · rw [lookupEntry_cons_neg e m k hek, cleanup_cons_kept w t e m hfil,
            lookupEntry_cons_neg (e.1, e.2.filter (fun x => decide (t - w < x)))
              (cleanupExpired w t m) k hek]
        exact ih hnd2

theorem any_iff_find?_isSome (m : VolMap) (p : String × List Rat → Bool) :
    m.any p = (m.find? p).isSome := by
  induction m with
  | nil => rfl
  | cons e m ih => cases hpe : p e <;> simp [List.any_cons, List.find?_cons, hpe, ih]

theorem find?_pred {α : Type} (p : α → Bool) (l : List α) (a : α)
    (h : l.find? p = some a) : p a = true := by
  induction l with
  | nil => cases h
  | cons x l ih =>
    by_cases hx : p x = true
    · rw [List.find?_cons_of_pos _ hx] at h
      cases h
      exact hx
    · rw [List.find?_cons_of_neg _ (by simpa using hx)] at h
      exact ih h

theorem appendTs_lookup_ne (m : VolMap) (u : String) (t : Rat) (k : String) (hk : k ≠ u) :
    lookupEntry (appendTs m u t) k = lookupEntry m k := by
  unfold appendTs
  by_cases hany : m.any (fun e => e.1 == u)
  · rw [if_pos hany]
    have hφ : ∀ e : String × List Rat,
        ((if e.1 == u then (e.1, e.2 ++ [t]) else e)).1 = e.1 := by
      intro e
      by_cases h : (e.1 == u) = true <;> simp [h]
    unfold lookupEntry
    rw [find?_map_keys _ hφ m k]
    cases hf : m.find? (fun e => e.1 == k) with
    | none => rfl
    | some e0 =>
      have he0 : (e0.1 == k) = true := find?_pred _ m e0 hf
      have he0u : (e0.1 == u) = false := by
        rw [eq_of_beq he0]
        exact beq_eq_false_iff_ne.mpr hk
      simp [he0u, beq_eq_false_iff_ne.mp he0u]
  · rw [if_neg hany]
    unfold lookupEntry
    rw [List.find?_append]
    have htail : List.find? (fun e => e.1 == k) [(u, [t])] = none := by
      simp [List.find?_cons, beq_eq_false_iff_ne.mpr (Ne.symm hk)]
    cases hf : m.find? (fun e => e.1 == k) <;> simp [hf, htail]

theorem appendTs_lookup_eq (m : VolMap) (u : String) (t : Rat) :
    lookupEntry (appendTs m u t) u = some ((lookupEntry m u).getD [] ++ [t]) := by
  unfold appendTs
  by_cases hany : m.any (fun e => e.1 == u)
  · rw [if_pos hany]
    have hφ : ∀ e : String × List Rat,
        ((if e.1 == u then (e.1, e.2 ++ [t]) else e)).1 = e.1 := by
      intro e
      by_cases h : (e.1 == u) = true <;> simp [h]
    unfold lookupEntry
    rw [find?_map_keys _ hφ m u]
    have hsome : (m.find? (fun e => e.1 == u)).isSome := by
      rw [← any_iff_find?_isSome]
      exact hany
    cases hf : m.find? (fun e => e.1 == u) with
    | none => rw [hf] at hsome; cases hsome
    | some e0 =>
      have he0 : (e0.1 == u) = true := find?_pred _ m e0 hf
      simp [he0, eq_of_beq he0]
  · rw [if_neg hany]
    have hnone : m.find? (fun e => e.1 == u) = none := by
      cases hf : m.find? (fun e => e.1 == u) with
      | none => rfl
      | some e0 =>
        rw [any_iff_find?_isSome, hf] at hany
        exact absurd rfl hany
    unfold lookupEntry
    rw [List.find?_append, hnone]
    simp [lookupEntry, hnone]

theorem volAnalyze_fst (w : Rat) (m : VolMap) (q : Query) (now : Rat) :
    (volAnalyze w m q now).1 =
      appendTs (cleanupExpired w (resolveTime q now) m) (resolveUser q)
        (resolveTime q now) := by
  simp only [volAnalyze]
  split <;> rfl

/-- C5 as amended: on each analyze call, pruning applies to every stored
user key (not only the resolved one), removing for each key exactly the
timestamps at or below `t - w` and deleting entries that become empty;
a key all of whose timestamps lie inside the window keeps its list
unchanged, and the resolved key additionally gets the new event time
appended. -/
theorem c5_prune_frame (w : Rat) (m : VolMap) (q : Query) (now : Rat)
    (hnd : (m.map Prod.fst).Nodup) :
    (∀ k, k ≠ resolveUser q →
      lookupEntry (volAnalyze w m q now).1 k =
        match lookupEntry m k with
        | none => none
        | some l =>
          if l.filter (fun x => decide (resolveTime q now - w < x)) = [] then none
          else some (l.filter (fun x => decide (resolveTime q now - w < x)))) ∧
    lookupEntry (volAnalyze w m q now).1 (resolveUser q) =
      some ((match lookupEntry m (resolveUser q) with
             | some l => l.filter (fun x => decide (resolveTime q now - w < x))
             | none => []) ++ [resolveTime q now]) := by
  constructor
  · intro k hk
    rw [volAnalyze_fst, appendTs_lookup_ne _ _ _ _ hk,
        cleanup_lookup _ _ _ hnd k]
  · rw [volAnalyze_fst, appendTs_lookup_eq,
        cleanup_lookup _ _ _ hnd (resolveUser q)]
    cases hl : lookupEntry m (resolveUser q) with
    | none => simp
    | some l =>
      by_cases hfil : l.filter (fun x => decide (resolveTime q now - w < x)) = []
      · simp [hfil]
      · simp [hfil]

/-- C5 witness: the amended statement evaluated on a two-key store where one
key is partially pruned and the resolved key gets the new event appended. -/
theorem c5_witness :
    lookupEntry ((volAnalyze 60 [("a", [(-100 : Rat), 10])] (volQuery "b" 0) 0).1) "a" =
      some [(10 : Rat)] ∧
    lookupEntry ((volAnalyze 60 [("a", [(-100 : Rat), 10])] (volQuery "b" 0) 0).1) "b" =
      some [(0 : Rat)] := by
  have h := c5_prune_frame 60 [("a", [(-100 : Rat), 10])] (volQuery "b" 0) 0 (by decide)
  exact ⟨(h.1 "a" (by decide)).trans (by decide), h.2.trans (by decide)⟩

theorem cleanup_mem_props (w t : Rat) (m : VolMap) :
    ∀ e ∈ cleanupExpired w t m, e.2 ≠ [] ∧ ∀ x ∈ e.2, t - w < x := by
  intro e he
  unfold cleanupExpired at he
  have h1 := List.mem_filter.mp he
  obtain ⟨e0, _, rfl⟩ := List.mem_map.mp h1.1
  refine ⟨?_, ?_⟩
  · intro hemp
    have h2 := h1.2
    rw [hemp] at h2
    simp at h2
  · intro x hx
    have := (List.mem_filter.mp hx).2
    simpa using this

/-- C10: after every analyze call with resolved event time `t` and positive
window `w`, every entry of the per-user map is non-empty and every stored
timestamp (for every key, not only the current one) is strictly newer than
`t - w`: the whole map is pruned against the current event's time before the
new timestamp is appended. -/
theorem c10_window_invariant (w : Rat) (m : VolMap) (q : Query) (now : Rat) (hw : 0 < w) :
    ∀ e ∈ (volAnalyze w m q now).1,
      e.2 ≠ [] ∧ ∀ x ∈ e.2, resolveTime q now - w < x := by
  intro e he
  rw [volAnalyze_fst] at he
  unfold appendTs at he
  by_cases hany :
      (cleanupExpired w (resolveTime q now) m).any (fun e => e.1 == resolveUser q)
  · rw [if_pos hany] at he
    obtain ⟨e0, he0, rfl⟩ := List.mem_map.mp he
    have hp := cleanup_mem_props w (resolveTime q now) m e0 he0
    by_cases heu : (e0.1 == resolveUser q) = true
    · simp only [heu, if_true]
      refine ⟨by simp, ?_⟩
      intro x hx
      rcases List.mem_append.mp hx with hx1 | hx2
      · exact hp.2 x hx1
      · rw [List.mem_singleton.mp hx2]
        exact sub_lt_self _ hw
    · simp only [heu, if_false]
      exact hp
  · rw [if_neg hany] at he
    rcases List.mem_append.mp he with h1 | h2
    · exact cleanup_mem_props w (resolveTime q now) m e h1
    · rw [List.mem_singleton.mp h2]
      refine ⟨by simp, ?_⟩
      intro x hx
      rw [List.mem_singleton.mp hx]
      exact sub_lt_self _ hw

/-- C10 witness: the invariant applied to a concrete call, fully
instantiated at the appended entry and its timestamp. -/
theorem c10_witness :
    ("b", [(10 : Rat)]) ∈ (volAnalyze 60 [("a", [(5 : Rat)])] (volQuery "b" 10) 0).1 ∧
    resolveTime (volQuery "b" 10) 0 - 60 < 10 :=
  ⟨by decide,
   (c10_window_invariant 60 [("a", [(5 : Rat)])] (volQuery "b" 10) 0 (by decide)
      ("b", [(10 : Rat)]) (by decide)).2 10 (by decide)⟩

theorem volAnalyze_scenario (w : Rat) (u : String) (pre : List Rat) (t : Rat)
    (hpre : ∀ x ∈ pre, t - w < x) :
    volAnalyze w (volStateOf u pre) (volQuery u t) 0 =
      (volStateOf u (pre ++ [t]),
       if pre.length + 1 > volThresholds .HIGH then
         some (volFinding w u (pre.length + 1) .HIGH)
       else if pre.length + 1 > volThresholds .MEDIUM then
         some (volFinding w u (pre.length + 1) .MEDIUM)
       else if pre.length + 1 > volThresholds .LOW then
         some (volFinding w u (pre.length + 1) .LOW)
       else none) := by
  have hu : resolveUser (volQuery u t) = u := rfl
  have ht : resolveTime (volQuery u t) 0 = t := rfl
  have hclean : cleanupExpired w t (volStateOf u pre) = volStateOf u pre := by
    by_cases hp : pre = []
    · simp [volStateOf, hp, cleanupExpired]
    · have hfil : pre.filter (fun x => decide (t - w < x)) = pre :=
        List.filter_eq_self.mpr (fun x hx => by simpa using hpre x hx)
      simp [volStateOf, hp, cleanupExpired, hfil, List.isEmpty_iff]
  have happend : appendTs (volStateOf u pre) u t = volStateOf u (pre ++ [t]) := by
    by_cases hp : pre = []
    · simp [volStateOf, hp, appendTs]
    · simp [volStateOf, hp, appendTs]
  have hcount : lookupTs (volStateOf u (pre ++ [t])) u = pre ++ [t] := by
    simp [volStateOf, lookupTs, List.find?_cons]
  simp only [volAnalyze, hu, ht, hclean, happend, hcount, List.length_append,
    List.length_singleton]
  by_cases h1 : pre.length + 1 > volThresholds .HIGH
  · simp [h1]
  · by_cases h2 : pre.length + 1 > volThresholds .MEDIUM
    · simp [h1, h2]
    · by_cases h3 : pre.length + 1 > volThresholds .LOW
      · simp [h1, h2, h3]
      · simp [h1, h2, h3]

theorem runVolume_state (w : Rat) (u : String) (l pre : List Rat)
    (st : VolMap × Option Finding) (hst : st.1 = volStateOf u pre)
    (hin : List.Pairwise (fun a b => b - w < a) (pre ++ l)) :
    (l.foldl (fun acc t => volAnalyze w acc.1 (volQuery u t) 0) st).1 =
      volStateOf u (pre ++ l) := by
  induction l generalizing pre st with
  | nil => simpa using hst
  | cons t l ih =>
    rw [List.foldl_cons]
    have hpre : ∀ x ∈ pre, t - w < x := by
      intro x hx
      exact (List.pairwise_append.mp hin).2.2 x hx t (List.mem_cons_self t l)
    have hst' : (volAnalyze w st.1 (volQuery u t) 0).1 = volStateOf u (pre ++ [t]) := by
      rw [hst, volAnalyze_scenario w u pre t hpre]
    have hin' : List.Pairwise (fun a b => b - w < a) ((pre ++ [t]) ++ l) := by
      rw [List.append_assoc]
      exact hin
    have hres := ih (pre ++ [t]) (volAnalyze w st.1 (volQuery u t) 0) hst' hin'
    rw [hres, List.append_assoc]
    rfl

/-- C1: with a fixed user key and the default thresholds, when all submitted
events fall within the window of every later call, the N-th analyze call
returns no finding for N ≤ 20, a LOW finding for 21 ≤ N ≤ 50, MEDIUM for
51 ≤ N ≤ 100 and HIGH for N > 100 (boundaries exclusive), and any returned
finding's details carry `query_count = N`. -/
theorem c1_volume_thresholds (w : Rat) (u : String) (ts : List Rat)
    (hne : ts ≠ [])
    (hin : List.Pairwise (fun a b => b - w < a) ts) :
    (ts.length ≤ 20 → (runVolume w u ts).2 = none) ∧
    (20 < ts.length → ts.length ≤ 50 →
      (runVolume w u ts).2 = some (volFinding w u ts.length .LOW)) ∧
    (50 < ts.length → ts.length ≤ 100 →
      (runVolume w u ts).2 = some (volFinding w u ts.length .MEDIUM)) ∧
    (100 < ts.length →
      (runVolume w u ts).2 = some (volFinding w u ts.length .HIGH)) := by
  obtain ⟨init, t, rfl⟩ : ∃ init t, ts = init ++ [t] := by
    rcases List.eq_nil_or_concat ts with h | ⟨L, b, h⟩
    · exact absurd h hne
    · exact ⟨L, b, by simpa [List.concat_eq_append] using h⟩
  have hin0 : List.Pairwise (fun a b => b - w < a) init :=
    (List.pairwise_append.mp hin).1
  have hpre : ∀ x ∈ init, t - w < x := by
    intro x hx
    exact (List.pairwise_append.mp hin).2.2 x hx t (List.mem_singleton.mpr rfl)
  have hstate : (runVolume w u init).1 = volStateOf u init :=
    runVolume_state w u init [] ([], none) rfl (by simpa using hin0)
  have hsplit : runVolume w u (init ++ [t]) =
      volAnalyze w (runVolume w u init).1 (volQuery u t) 0 := by
    unfold runVolume
    rw [List.foldl_append]
    rfl
  have hfinal : runVolume w u (init ++ [t]) =
      (volStateOf u (init ++ [t]),
       if init.length + 1 > volThresholds .HIGH then
         some (volFinding w u (init.length + 1) .HIGH)
       else if init.length + 1 > volThresholds .MEDIUM then
         some (volFinding w u (init.length + 1) .MEDIUM)
       else if init.length + 1 > volThresholds .LOW then
         some (volFinding w u (init.length + 1) .LOW)
       else none) := by
    rw [hsplit, hstate]
    exact volAnalyze_scenario w u init t hpre
  have hlen : (init ++ [t]).length = init.length + 1 := by simp
  refine ⟨?_, ?_, ?_, ?_⟩
  · intro hle
    rw [hlen] at hle
    rw [hfinal]
    have h1 : ¬(init.length + 1 > volThresholds Severity.HIGH) := by
      simp only [volThresholds]
      omega
    have h2 : ¬(init.length + 1 > volThresholds Severity.MEDIUM) := by
      simp only [volThresholds]
      omega
    have h3 : ¬(init.length + 1 > volThresholds Severity.LOW) := by
      simp only [volThresholds]
      omega
    simp [h1, h2, h3]
  · intro hgt hle
    rw [hlen] at hgt hle
    rw [hfinal, hlen]
    have h1 : ¬(init.length + 1 > volThresholds Severity.HIGH) := by
      simp only [volThresholds]
      omega
    have h2 : ¬(init.length + 1 > volThresholds Severity.MEDIUM) := by
      simp only [volThresholds]
      omega
    have h3 : init.length + 1 > volThresholds Severity.LOW := by
      simp only [volThresholds]
      omega
    simp [h1, h2, h3]
  · intro hgt hle
    rw [hlen] at hgt hle
    rw [hfinal, hlen]
    have h1 : ¬(init.length + 1 > volThresholds Severity.HIGH) := by
      simp only [volThresholds]
      omega
    have h2 : init.length + 1 > volThresholds Severity.MEDIUM := by
      simp only [volThresholds]
      omega
    simp [h1, h2]
  · intro hgt
    rw [hlen] at hgt
    rw [hfinal, hlen]
    have h1 : init.length + 1 > volThresholds Severity.HIGH := by
      simp only [volThresholds]
      omega
    simp [h1]

/-- C1 witness: 21 in-window events for one user; the 21st call returns a
LOW finding whose details carry `query_count = 21`. -/
theorem c1_witness :
    (runVolume 60 "u" (List.replicate 21 (0 : Rat))).2 =
      some (volFinding 60 "u" (List.replicate 21 (0 : Rat)).length .LOW) :=
  (c1_volume_thresholds 60 "u" (List.replicate 21 (0 : Rat)) (by decide) (by decide)).2.1
    (by decide) (by decide)
